import Mathlib

/-!
# Verification of `library/bedrock_prompt.py` (`run_module`)

A shallow embedding of the Ansible module `bedrock_prompt`.  The module:

* reads parameters `prompt`, `model_id`, `region`, `max_tokens`;
* in check mode, exits immediately with the default result
  (`changed=False`, `bedrock_response=''`);
* otherwise builds a boto3 `bedrock-runtime` client, selects between the
  Messages API and the Text Completion API by substring match on
  `model_id`, serializes the request body with `json.dumps`, invokes the
  model, parses the response with `json.loads`, extracts the text, and
  calls `exit_json`; every exception of the `try` block is caught and
  turned into `fail_json(msg=str(e), **result)`.

JSON values are modelled by the inductive `Json`; Python dictionaries
produced by `json.loads` have unique string keys, so an association list
with first-match lookup models them.  Python runtime errors raised by the
extraction expressions (`IndexError`, `AttributeError`, `TypeError`,
`KeyError`) are modelled by `PyExc`; the boto3 client construction, the
remote `invoke_model` call, the `.read()` of the body and its
`json.loads` are environment effects, modelled by an `Env` that either
returns the parsed response JSON or raises.
-/

/-- A JSON value, as produced by Python's `json.loads`.  Python floats are
modelled by their exact rational value (the only float literal in the
source is `0.5`). -/
inductive Json where
  | str (s : String)
  | int (n : Int)
  | float (q : Rat)
  | bool (b : Bool)
  | null
  | arr (elems : List Json)
  | obj (fields : List (String × Json))
deriving Repr

/-- The Python type name of a value, as it appears in runtime error
messages (`str(type(x).__name__)` for values arising from `json.loads`). -/
def Json.pyTypeName : Json → String
  | .str _ => "str"
  | .int _ => "int"
  | .float _ => "float"
  | .bool _ => "bool"
  | .null => "NoneType"
  | .arr _ => "list"
  | .obj _ => "dict"

/-- Key lookup in a (unique-keyed) Python dict modelled as an association
list. -/
def lookupField : List (String × Json) → String → Option Json
  | [], _ => none
  | (k, v) :: rest, key => if k = key then some v else lookupField rest key

/-- Does `needle` occur starting at the head of `hay`? -/
def matchesAt : List Char → List Char → Bool
  | [], _ => true
  | _ :: _, [] => false
  | c :: cs, d :: ds => c == d && matchesAt cs ds

/-- Substring search over character lists. -/
def infixSearch (needle : List Char) : List Char → Bool
  | [] => needle.isEmpty
  | d :: ds => matchesAt needle (d :: ds) || infixSearch needle ds

/-- Python's `needle in hay` on strings: substring containment. -/
def pyIn (needle hay : String) : Bool :=
  infixSearch needle.toList hay.toList

/-! ## `json.dumps`

Default settings of `json.dumps`: `ensure_ascii=True` (characters outside
`0x20..0x7e` are `\uXXXX`-escaped, astral characters as surrogate pairs),
item separator `", "`, key separator `": "`, insertion order preserved.
With `indent=2` the item separator becomes `","` followed by a newline and
indentation. -/

/-- Lower-case hexadecimal digit. -/
def hexDigit (n : Nat) : Char :=
  if n < 10 then Char.ofNat (48 + n) else Char.ofNat (87 + n)

/-- Four lower-case hexadecimal digits. -/
def hex4 (n : Nat) : String :=
  String.mk [hexDigit (n / 4096 % 16), hexDigit (n / 256 % 16),
             hexDigit (n / 16 % 16), hexDigit (n % 16)]

/-- A `\uXXXX` escape. -/
def uEsc (n : Nat) : String := "\\u" ++ hex4 n

/-- Escape one character as `json.dumps` (with `ensure_ascii=True`) does. -/
def escChar (c : Char) : String :=
  if c = '\\' then "\\\\"
  else if c = '"' then "\\\""
  else if c = Char.ofNat 8 then "\\b"
  else if c = Char.ofNat 12 then "\\f"
  else if c = '\n' then "\\n"
  else if c = Char.ofNat 13 then "\\r"
  else if c = '\t' then "\\t"
  else if c.toNat < 0x20 then uEsc c.toNat
  else if c.toNat > 0x7e then
    if c.toNat < 0x10000 then uEsc c.toNat
    else
      uEsc (0xd800 + (c.toNat - 0x10000) / 1024) ++
        uEsc (0xdc00 + (c.toNat - 0x10000) % 1024)
  else String.singleton c

/-- A JSON string literal for `s`. -/
def escString (s : String) : String :=
  "\"" ++ String.join (s.toList.map escChar) ++ "\""

/-- Zero-padded decimal digits of `n`, `k` digits wide. -/
def padDigits (k n : Nat) : List Char :=
  (List.range k).reverse.map (fun i => Char.ofNat (48 + n / 10 ^ i % 10))

/-- Drop trailing zero digits. -/
def dropTrailingZeros (cs : List Char) : List Char :=
  (cs.reverse.dropWhile (fun c => c == '0')).reverse

/-- `repr` of a Python float whose value has a terminating decimal
expansion (every float literal short enough to appear in source does; the
only one in this module is `0.5`, whose `repr` is `"0.5"`). -/
def floatRepr (q : Rat) : String :=
  let sign := if q < 0 then "-" else ""
  let n := q.num.natAbs
  let d := q.den
  match (List.range 65).findSome?
      (fun k => if n * 10 ^ k % d = 0 then some (k, n * 10 ^ k / d) else none) with
  | some (k, digits) =>
      let ip := digits / 10 ^ k
      let fracDigits := dropTrailingZeros (padDigits k (digits % 10 ^ k))
      sign ++ toString ip ++ "." ++
        (if fracDigits.isEmpty then "0" else String.mk fracDigits)
  | none => sign ++ toString n ++ "/" ++ toString d

mutual

/-- `json.dumps(j)` with default options. -/
def Json.dumps : Json → String
  | .str s => escString s
  | .int n => toString n
  | .float q => floatRepr q
  | .bool b => if b then "true" else "false"
  | .null => "null"
  | .arr xs => "[" ++ dumpsElems xs ++ "]"
  | .obj fs => "\x7b" ++ dumpsFields fs ++ "\x7d"

/-- Array elements joined by `", "`. -/
def dumpsElems : List Json → String
  | [] => ""
  | [x] => Json.dumps x
  | x :: y :: rest => Json.dumps x ++ ", " ++ dumpsElems (y :: rest)

/-- Object entries joined by `", "`, key and value separated by `": "`. -/
def dumpsFields : List (String × Json) → String
  | [] => ""
  | [(k, v)] => escString k ++ ": " ++ Json.dumps v
  | (k, v) :: e :: rest =>
      escString k ++ ": " ++ Json.dumps v ++ ", " ++ dumpsFields (e :: rest)

end

/-- `lvl` spaces. -/
def indentSpaces (lvl : Nat) : String :=
  String.mk (List.replicate lvl ' ')

mutual

/-- `json.dumps(j, indent=2)`: `lvl` is the current indentation width in
spaces.  Empty containers print as `[]` / `{}`; non-empty containers put
each entry on its own line, indented two further spaces. -/
def Json.dumpsIndent : Nat → Json → String
  | _, .str s => escString s
  | _, .int n => toString n
  | _, .float q => floatRepr q
  | _, .bool b => if b then "true" else "false"
  | _, .null => "null"
  | _, .arr [] => "[]"
  | lvl, .arr (x :: xs) =>
      "[\n" ++ indentElems (lvl + 2) (x :: xs) ++ "\n" ++ indentSpaces lvl ++ "]"
  | _, .obj [] => "\x7b\x7d"
  | lvl, .obj (f :: fs) =>
      "\x7b\n" ++ indentFields (lvl + 2) (f :: fs) ++ "\n" ++ indentSpaces lvl ++ "\x7d"

/-- Indented array elements, one per line, separated by `",\n"`. -/
def indentElems : Nat → List Json → String
  | _, [] => ""
  | lvl, [x] => indentSpaces lvl ++ Json.dumpsIndent lvl x
  | lvl, x :: y :: rest =>
      indentSpaces lvl ++ Json.dumpsIndent lvl x ++ ",\n" ++ indentElems lvl (y :: rest)

/-- Indented object entries, one per line, separated by `",\n"`. -/
def indentFields : Nat → List (String × Json) → String
  | _, [] => ""
  | lvl, [(k, v)] => indentSpaces lvl ++ escString k ++ ": " ++ Json.dumpsIndent lvl v
  | lvl, (k, v) :: e :: rest =>
      indentSpaces lvl ++ escString k ++ ": " ++ Json.dumpsIndent lvl v ++ ",\n" ++
        indentFields lvl (e :: rest)

end

/-! ## Python runtime exceptions and primitive operations -/

/-- A Python exception, by kind, carrying `str(e)`. -/
inductive PyExc where
  | indexError (msg : String)
  | attributeError (msg : String)
  | typeError (msg : String)
  | keyError (msg : String)
  | other (msg : String)
deriving Repr, DecidableEq

/-- `str(e)` of a caught exception: the message of the model. -/
def PyExc.str : PyExc → String
  | .indexError m => m
  | .attributeError m => m
  | .typeError m => m
  | .keyError m => m
  | .other m => m

/-- Python `x[0]` on a value from `json.loads`: first element of a list
(`IndexError` when empty), first character of a string, `KeyError` on a
dict (keys from `json.loads` are strings, never the int `0`), `TypeError`
otherwise. -/
def pySubscriptZero : Json → Except PyExc Json
  | .arr [] => .error (.indexError "list index out of range")
  | .arr (x :: _) => .ok x
  | .str s =>
      if s.isEmpty then .error (.indexError "string index out of range")
      else .ok (.str (String.singleton s.front))
  | .obj _ => .error (.keyError "0")
  | j => .error (.typeError ("\x27" ++ j.pyTypeName ++ "\x27 object is not subscriptable"))

/-- Python `x[key]` for a string `key`. -/
def pySubscriptStr (j : Json) (key : String) : Except PyExc Json :=
  match j with
  | .obj fields =>
      match lookupField fields key with
      | some v => .ok v
      | none => .error (.keyError ("\x27" ++ key ++ "\x27"))
  | .arr _ => .error (.typeError "list indices must be integers or slices, not str")
  | .str _ => .error (.typeError "string indices must be integers")
  | _ => .error (.typeError ("\x27" ++ j.pyTypeName ++ "\x27 object is not subscriptable"))

/-- Python `x == key` for a string `key`: only an equal string compares
equal; values of the other `json.loads` types are never `==` to a `str`. -/
def isStrEq (x : Json) (key : String) : Bool :=
  match x with
  | .str s => s = key
  | _ => false

/-- Python `key in x` for a string `key`: key containment on a dict,
membership on a list, substring on a string, `TypeError` otherwise. -/
def pyContains (j : Json) (key : String) : Except PyExc Bool :=
  match j with
  | .obj fields => .ok (lookupField fields key).isSome
  | .arr xs => .ok (xs.any (fun x => isStrEq x key))
  | .str s => .ok (pyIn key s)
  | _ => .error (.typeError ("argument of type \x27" ++ j.pyTypeName ++ "\x27 is not iterable"))

/-- Python `d.get(key, default)`; `AttributeError` when the receiver is
not a dict. -/
def pyGet (j : Json) (key : String) (dflt : Json) : Except PyExc Json :=
  match j with
  | .obj fields => .ok ((lookupField fields key).getD dflt)
  | _ => .error (.attributeError
      ("\x27" ++ j.pyTypeName ++ "\x27 object has no attribute \x27get\x27"))

/-! ## The module's request construction and response extraction -/

/-- The wire schema chosen for a model id (spec §4.1). -/
inductive WireSchema where
  | MessagesSchema
  | CompletionSchema
deriving Repr, DecidableEq

/-- `if "claude-3-sonnet" in model_id or "claude-3-5-sonnet" in model_id`
(line 86 of the source). -/
def selectSchema (model_id : String) : WireSchema :=
  if pyIn "claude-3-sonnet" model_id || pyIn "claude-3-5-sonnet" model_id then
    .MessagesSchema
  else
    .CompletionSchema

/-- The Messages API request dict (lines 88–93). -/
def messagesBody (prompt : String) (max_tokens : Int) : Json :=
  .obj [("anthropic_version", .str "bedrock-2023-05-31"),
        ("max_tokens", .int max_tokens),
        ("messages", .arr [.obj [("role", .str "user"), ("content", .str prompt)]])]

/-- The Text Completion API request dict (lines 104–110); the `prompt`
field is the f-string `f"\n\nHuman: {prompt}\n\nAssistant:"`. -/
def completionBody (prompt : String) (max_tokens : Int) : Json :=
  .obj [("prompt", .str ("\n\nHuman: " ++ prompt ++ "\n\nAssistant:")),
        ("max_tokens_to_sample", .int max_tokens),
        ("temperature", .float 0.5),
        ("top_p", .int 1),
        ("stop_sequences", .arr [.str "\n\nHuman:"])]

/-- Messages-schema extraction (line 102):
`response_body.get('content', [{}])[0].get('text', 'No response from Bedrock')`. -/
def extractMessages (response_body : Json) : Except PyExc Json := do
  let content ← pyGet response_body "content" (.arr [.obj []])
  let first ← pySubscriptZero content
  pyGet first "text" (.str "No response from Bedrock")

/-- Completion-schema extraction (lines 118–125):

```
if 'completion' not in response_body:
    if 'output' in response_body and 'text' in response_body['output']:
        result = response_body['output']['text']
    else:
        result = f"No valid response found. Raw response: {json.dumps(response_body, indent=2)}"
else:
    result = response_body['completion']
```
-/
def extractCompletion (response_body : Json) : Except PyExc Json := do
  let hasCompletion ← pyContains response_body "completion"
  if hasCompletion then
    pySubscriptStr response_body "completion"
  else
    let cond ← (do
      let hasOutput ← pyContains response_body "output"
      if hasOutput then
        let out ← pySubscriptStr response_body "output"
        pyContains out "text"
      else
        pure false)
    if cond then
      let out ← pySubscriptStr response_body "output"
      pySubscriptStr out "text"
    else
      pure (.str ("No valid response found. Raw response: " ++
        Json.dumpsIndent 0 response_body))

/-! ## The module boundary -/

/-- The module parameters (after Ansible argument coercion). -/
structure Params where
  prompt : String
  model_id : String
  region : String
  max_tokens : Int

/-- The environment: the boto3 client construction for a region (which
may raise), and the composite effect of `invoke_model` on a request body
plus `json.loads(response['body'].read())` — either the parsed response
JSON or an exception (network, auth, throttling, malformed JSON, ...). -/
structure Env where
  client : String → Except PyExc Unit
  invoke : String → Except PyExc Json

/-- Outcome of a run: `exit_json` or `fail_json`, each carrying the
`result` dict (`changed`, `bedrock_response`). -/
inductive Outcome where
  | exitJson (changed : Bool) (bedrock_response : Json)
  | failJson (msg : String) (changed : Bool) (bedrock_response : Json)
deriving Repr

/-- The `try:` block of `run_module` (lines 82–127), returning the value
assigned to `result['bedrock_response']` or the raised exception, paired
with the list of request bodies passed to `invoke_model`. -/
def tryBody (p : Params) (env : Env) : Except PyExc Json × List String :=
  match env.client p.region with
  | .error e => (.error e, [])
  | .ok _ =>
    match selectSchema p.model_id with
    | .MessagesSchema =>
      let body := (messagesBody p.prompt p.max_tokens).dumps
      match env.invoke body with
      | .error e => (.error e, [body])
      | .ok response_body => (extractMessages response_body, [body])
    | .CompletionSchema =>
      let body := (completionBody p.prompt p.max_tokens).dumps
      match env.invoke body with
      | .error e => (.error e, [body])
      | .ok response_body => (extractCompletion response_body, [body])

/-- `run_module`: check mode exits with the default result; otherwise the
`try` block either reaches `exit_json(**result)` with the extracted text,
or its exception is caught and `fail_json(msg=str(e), **result)` reports
the failure with the still-default result fields.  The second component
is the list of remote requests performed. -/
def run_module (p : Params) (check_mode : Bool) (env : Env) : Outcome × List String :=
  if check_mode then
    (.exitJson false (.str ""), [])
  else
    match tryBody p env with
    | (.ok text, reqs) => (.exitJson false text, reqs)
    | (.error e, reqs) => (.failJson e.str false (.str ""), reqs)

/-! ## Concrete fixtures for witnesses -/

/-- Parameters of the DOCUMENTATION example: a Claude 3 Sonnet model. -/
def paramsSonnet : Params :=
  ⟨"What are the key benefits of cloud computing?",
   "anthropic.claude-3-sonnet-20240229-v1:0", "us-west-2", 1000⟩

/-- Parameters for a model outside the Claude 3 Sonnet families. -/
def paramsClaudeV2 : Params :=
  ⟨"hi", "anthropic.claude-v2", "us-east-1", 300⟩

/-- An environment whose remote call succeeds with `{"content":[]}`. -/
def envEmptyContent : Env :=
  ⟨fun _ => .ok (), fun _ => .ok (.obj [("content", .arr [])])⟩

/-- An environment whose remote call succeeds with `{"completion":"hi"}`. -/
def envCompletionHi : Env :=
  ⟨fun _ => .ok (), fun _ => .ok (.obj [("completion", .str "hi")])⟩

/-- An environment whose remote call succeeds with `{}`. -/
def envEmptyObj : Env :=
  ⟨fun _ => .ok (), fun _ => .ok (.obj [])⟩

/-- An environment whose client construction raises. -/
def envClientBoom : Env :=
  ⟨fun _ => .error (.other "Unable to locate credentials"), fun _ => .ok (.obj [])⟩

/-! ## Helper lemmas -/

/-- When the `try` block reaches `exit_json`, `run_module` reports
success with the extracted text. -/
theorem run_module_of_ok (p : Params) (env : Env) (text : Json) (reqs : List String)
    (h : tryBody p env = (.ok text, reqs)) :
    run_module p false env = (.exitJson false text, reqs) := by
  simp [run_module, h]

/-- When the `try` block raises, `run_module` reports failure with
`str(e)` and the default result fields. -/
theorem run_module_of_error (p : Params) (env : Env) (e : PyExc) (reqs : List String)
    (h : tryBody p env = (.error e, reqs)) :
    run_module p false env = (.failJson e.str false (.str ""), reqs) := by
  simp [run_module, h]

/-- A run performs at most one remote call. -/
theorem tryBody_reqs_length (p : Params) (env : Env) :
    (tryBody p env).2.length ≤ 1 := by
  unfold tryBody
  cases hc : env.client p.region with
  | error e => simp
  | ok u =>
    cases hs : selectSchema p.model_id with
    | MessagesSchema =>
        cases hi : env.invoke ((messagesBody p.prompt p.max_tokens).dumps) <;> simp [hi]
    | CompletionSchema =>
        cases hi : env.invoke ((completionBody p.prompt p.max_tokens).dumps) <;> simp [hi]

/-- Messages extraction when `content` is absent: the `.get` default
`[{}]` flows through to the fallback string. -/
theorem extractMessages_of_no_content (fields : List (String × Json))
    (h : lookupField fields "content" = none) :
    extractMessages (.obj fields) = .ok (.str "No response from Bedrock") := by
  simp [extractMessages, pyGet, h, pySubscriptZero, lookupField, Bind.bind, Except.bind]

/-- Messages extraction when `content` is present but the empty list:
`[0]` raises `IndexError`. -/
theorem extractMessages_of_empty_content (fields : List (String × Json))
    (h : lookupField fields "content" = some (.arr [])) :
    extractMessages (.obj fields) = .error (.indexError "list index out of range") := by
  simp [extractMessages, pyGet, h, pySubscriptZero, Bind.bind, Except.bind]

/-- The trace of requests once the client is constructed: exactly the
body selected for the model id. -/
theorem tryBody_trace (p : Params) (env : Env) (hc : env.client p.region = .ok ()) :
    (tryBody p env).2 =
      [(match selectSchema p.model_id with
        | .MessagesSchema => messagesBody p.prompt p.max_tokens
        | .CompletionSchema => completionBody p.prompt p.max_tokens).dumps] := by
  unfold tryBody
  rw [hc]
  cases hs : selectSchema p.model_id with
  | MessagesSchema =>
      cases hi : env.invoke ((messagesBody p.prompt p.max_tokens).dumps) <;> simp [hs, hi]
  | CompletionSchema =>
      cases hi : env.invoke ((completionBody p.prompt p.max_tokens).dumps) <;> simp [hs, hi]

/-- The request trace of a non-check-mode run is the trace of its `try`
block. -/
theorem run_module_trace (p : Params) (env : Env) :
    (run_module p false env).2 = (tryBody p env).2 := by
  rcases h : tryBody p env with ⟨r, rs⟩
  cases r <;> simp [run_module, h]

/-! ## Claims -/

/-- C7: for every input, a check-mode (dry-run) invocation performs no
remote call and returns the default structure unchanged — `changed=false`
and an empty `bedrock_response` — with no failure reported. -/
theorem check_mode_performs_no_call (p : Params) (env : Env) :
    run_module p true env = (.exitJson false (.str ""), []) := rfl

/-- C6: every exception of the `try` block — from the client call,
serialization, JSON parsing or response extraction — is caught at the
single outer boundary and reported as a failure whose message is the
error's string representation; the run is a total function (nothing
propagates uncaught) and at most one remote call is made (no retry). -/
theorem exceptions_caught_and_reported (p : Params) (env : Env) (e : PyExc)
    (reqs : List String) (h : tryBody p env = (.error e, reqs)) :
    run_module p false env = (.failJson e.str false (.str ""), reqs) ∧
      reqs.length ≤ 1 := by
  refine ⟨run_module_of_error p env e reqs h, ?_⟩
  have hlen := tryBody_reqs_length p env
  rw [h] at hlen
  exact hlen

/-- Witness for C6 at a client-construction failure. -/
theorem exceptions_caught_and_reported_witness :
    run_module paramsClaudeV2 false envClientBoom =
      (.failJson "Unable to locate credentials" false (.str ""), []) ∧
      ([] : List String).length ≤ 1 :=
  exceptions_caught_and_reported paramsClaudeV2 envClientBoom
    (.other "Unable to locate credentials") [] rfl

/-- C8: every successful non-check-mode invocation returns
`changed=false` and `bedrock_response` equal to the text extracted from
the remote response. -/
theorem success_returns_extracted_text (p : Params) (env : Env) (text : Json)
    (reqs : List String) (h : tryBody p env = (.ok text, reqs)) :
    run_module p false env = (.exitJson false text, reqs) :=
  run_module_of_ok p env text reqs h

/-- Witness for C8 on a `{"completion":"hi"}` response. -/
theorem success_returns_extracted_text_witness :
    run_module paramsClaudeV2 false envCompletionHi =
      (.exitJson false (.str "hi"), [(completionBody "hi" 300).dumps]) :=
  success_returns_extracted_text paramsClaudeV2 envCompletionHi (.str "hi")
    [(completionBody "hi" 300).dumps] rfl

/-- C9: every invocation that reports failure carries the result fields
in their pre-call state: `changed=false` and `bedrock_response` the empty
string; no partial extraction result accompanies a failure. -/
theorem failure_preserves_default_result (p : Params) (env : Env) (msg : String)
    (changed : Bool) (resp : Json) (reqs : List String)
    (h : run_module p false env = (.failJson msg changed resp, reqs)) :
    changed = false ∧ resp = .str "" := by
  rcases ho : tryBody p env with ⟨r, rs⟩
  cases r with
  | ok text =>
      rw [run_module_of_ok p env text rs ho] at h
      have := congrArg Prod.fst h
      simp at this
  | error e =>
      rw [run_module_of_error p env e rs ho] at h
      have := congrArg Prod.fst h
      simp only [Outcome.failJson.injEq] at this
      exact ⟨this.2.1.symm, this.2.2.symm⟩

/-- Witness for C9 at a client-construction failure. -/
theorem failure_preserves_default_result_witness :
    false = false ∧ Json.str "" = Json.str "" :=
  failure_preserves_default_result paramsClaudeV2 envClientBoom
    "Unable to locate credentials" false (.str "") [] rfl

/-- C1: for every `model_id` containing the substring `"claude-3-sonnet"`
or `"claude-3-5-sonnet"` (whatever the surrounding characters), and every
prompt and `max_tokens`, the module selects the Messages schema and the
request it sends is exactly the JSON serialization of
`{"anthropic_version": "bedrock-2023-05-31", "max_tokens": max_tokens,
"messages": [{"role": "user", "content": prompt}]}`. -/
theorem claude3_sonnet_selects_messages_schema (prompt mid region : String)
    (mt : Int) (env : Env)
    (h : pyIn "claude-3-sonnet" mid = true ∨ pyIn "claude-3-5-sonnet" mid = true)
    (hc : env.client region = .ok ()) :
    selectSchema mid = .MessagesSchema ∧
    (run_module ⟨prompt, mid, region, mt⟩ false env).2 =
      [(Json.obj [("anthropic_version", .str "bedrock-2023-05-31"),
                  ("max_tokens", .int mt),
                  ("messages", .arr [.obj [("role", .str "user"),
                                           ("content", .str prompt)]])]).dumps] := by
  have hsel : selectSchema mid = .MessagesSchema := by
    unfold selectSchema
    rcases h with h | h <;> simp [h]
  refine ⟨hsel, ?_⟩
  have htr := tryBody_trace ⟨prompt, mid, region, mt⟩ env hc
  rw [hsel] at htr
  rw [run_module_trace]
  exact htr.trans rfl

/-- Witness for C1 at the DOCUMENTATION example's model id. -/
theorem claude3_sonnet_selects_messages_schema_witness :
    selectSchema "anthropic.claude-3-sonnet-20240229-v1:0" = .MessagesSchema ∧
    (run_module paramsSonnet false envEmptyObj).2 =
      [(Json.obj [("anthropic_version", .str "bedrock-2023-05-31"),
                  ("max_tokens", .int 1000),
                  ("messages", .arr [.obj [("role", .str "user"),
                    ("content", .str "What are the key benefits of cloud computing?")]])]).dumps] :=
  claude3_sonnet_selects_messages_schema
    "What are the key benefits of cloud computing?"
    "anthropic.claude-3-sonnet-20240229-v1:0" "us-west-2" 1000 envEmptyObj
    (Or.inl rfl) rfl

/-- C2: for every `model_id` containing neither `"claude-3-sonnet"` nor
`"claude-3-5-sonnet"`, the module selects the Completion schema and the
request it sends is exactly the JSON serialization of the body whose
`prompt` is `"\n\nHuman: " ++ prompt ++ "\n\nAssistant:"`,
`max_tokens_to_sample` is `max_tokens`, `temperature` is `0.5`, `top_p`
is `1` and `stop_sequences` is `["\n\nHuman:"]`. -/
theorem other_models_select_completion_schema (prompt mid region : String)
    (mt : Int) (env : Env)
    (h1 : pyIn "claude-3-sonnet" mid = false)
    (h2 : pyIn "claude-3-5-sonnet" mid = false)
    (hc : env.client region = .ok ()) :
    selectSchema mid = .CompletionSchema ∧
    (run_module ⟨prompt, mid, region, mt⟩ false env).2 =
      [(Json.obj [("prompt", .str ("\n\nHuman: " ++ prompt ++ "\n\nAssistant:")),
                  ("max_tokens_to_sample", .int mt),
                  ("temperature", .float 0.5),
                  ("top_p", .int 1),
                  ("stop_sequences", .arr [.str "\n\nHuman:"])]).dumps] := by
  have hsel : selectSchema mid = .CompletionSchema := by
    unfold selectSchema
    simp [h1, h2]
  refine ⟨hsel, ?_⟩
  have htr := tryBody_trace ⟨prompt, mid, region, mt⟩ env hc
  rw [hsel] at htr
  rw [run_module_trace]
  exact htr.trans rfl

/-- Witness for C2 at a Claude 2 model id. -/
theorem other_models_select_completion_schema_witness :
    selectSchema "anthropic.claude-v2" = .CompletionSchema ∧
    (run_module paramsClaudeV2 false envEmptyObj).2 =
      [(Json.obj [("prompt", .str ("\n\nHuman: " ++ "hi" ++ "\n\nAssistant:")),
                  ("max_tokens_to_sample", .int 300),
                  ("temperature", .float 0.5),
                  ("top_p", .int 1),
                  ("stop_sequences", .arr [.str "\n\nHuman:"])]).dumps] :=
  other_models_select_completion_schema "hi" "anthropic.claude-v2" "us-east-1"
    300 envEmptyObj rfl rfl rfl

/-- C3 counterexample: for the response `{"content":[]}` the extraction
expression does not produce the fallback string — `[0]` on the empty list
raises `IndexError`. -/
theorem empty_content_extraction_raises :
    extractMessages (Json.obj [("content", Json.arr [])]) =
      Except.error (PyExc.indexError "list index out of range") ∧
    extractMessages (Json.obj [("content", Json.arr [])]) ≠
      Except.ok (Json.str "No response from Bedrock") :=
  ⟨rfl, fun h => Except.noConfusion h⟩

/-- C3 amended: `{"content":[{"text":"hello"}]}` extracts to `"hello"`;
a response object with no `content` field extracts to the fallback
`"No response from Bedrock"`; but `{"content":[]}` raises `IndexError`
instead of producing the fallback. -/
theorem messages_extraction_behavior :
    extractMessages (Json.obj [("content", Json.arr [Json.obj [("text", Json.str "hello")]])]) =
      Except.ok (Json.str "hello") ∧
    (∀ fields : List (String × Json), lookupField fields "content" = none →
      extractMessages (Json.obj fields) = Except.ok (Json.str "No response from Bedrock")) ∧
    (∀ fields : List (String × Json), lookupField fields "content" = some (Json.arr []) →
      extractMessages (Json.obj fields) =
        Except.error (PyExc.indexError "list index out of range")) :=
  ⟨rfl, extractMessages_of_no_content, extractMessages_of_empty_content⟩

/-- Witness for C3 amended at concrete responses. -/
theorem messages_extraction_behavior_witness :
    extractMessages (Json.obj [("other", Json.int 1)]) =
      Except.ok (Json.str "No response from Bedrock") ∧
    extractMessages (Json.obj [("content", Json.arr []), ("id", Json.str "x")]) =
      Except.error (PyExc.indexError "list index out of range") :=
  ⟨messages_extraction_behavior.2.1 [("other", Json.int 1)] rfl,
   messages_extraction_behavior.2.2 [("content", Json.arr []), ("id", Json.str "x")] rfl⟩

/-- C4 counterexample: a messages-schema invocation whose remote response
is `{"content":[]}` does report a failure (the `IndexError` reaches the
outer handler), contradicting "the invocation never reports failure". -/
theorem empty_content_reports_failure :
    (run_module paramsSonnet false envEmptyContent).1 =
      Outcome.failJson "list index out of range" false (Json.str "") :=
  rfl

/-- C4 amended: for a messages-schema invocation, a response object with
`content` absent degrades to the fallback string and exits successfully;
but a response with `content` present and empty raises `IndexError`,
which is caught and reported as a failure. -/
theorem malformed_messages_handling (p : Params) (env : Env)
    (fields : List (String × Json))
    (hsel : selectSchema p.model_id = .MessagesSchema)
    (hc : env.client p.region = .ok ())
    (hi : env.invoke (messagesBody p.prompt p.max_tokens).dumps = .ok (.obj fields)) :
    (lookupField fields "content" = none →
      (run_module p false env).1 = .exitJson false (.str "No response from Bedrock")) ∧
    (lookupField fields "content" = some (.arr []) →
      (run_module p false env).1 =
        .failJson "list index out of range" false (.str "")) := by
  have ht : tryBody p env =
      (extractMessages (.obj fields), [(messagesBody p.prompt p.max_tokens).dumps]) := by
    simp [tryBody, hc, hsel, hi]
  constructor
  · intro hnone
    have h2 : tryBody p env = (.ok (.str "No response from Bedrock"),
        [(messagesBody p.prompt p.max_tokens).dumps]) := by
      rw [ht, extractMessages_of_no_content fields hnone]
    rw [run_module_of_ok _ _ _ _ h2]
  · intro hempty
    have h2 : tryBody p env = (.error (.indexError "list index out of range"),
        [(messagesBody p.prompt p.max_tokens).dumps]) := by
      rw [ht, extractMessages_of_empty_content fields hempty]
    rw [run_module_of_error _ _ _ _ h2]
    rfl

/-- Witness for C4 amended at the `{"content":[]}` response. -/
theorem malformed_messages_handling_witness :
    (run_module paramsSonnet false envEmptyContent).1 =
      Outcome.failJson "list index out of range" false (Json.str "") :=
  (malformed_messages_handling paramsSonnet envEmptyContent
    [("content", Json.arr [])] rfl rfl rfl).2 rfl

/-- C10: a messages-schema response whose `content` list is non-empty and
whose first element is an object with no `text` field extracts to the
same fallback string as an absent `content`. -/
theorem missing_text_field_falls_back (fields ofields : List (String × Json))
    (rest : List Json)
    (hcon : lookupField fields "content" = some (.arr (.obj ofields :: rest)))
    (htext : lookupField ofields "text" = none) :
    extractMessages (.obj fields) = .ok (.str "No response from Bedrock") := by
  simp [extractMessages, pyGet, hcon, pySubscriptZero, htext, Bind.bind, Except.bind]

/-- Witness for C10 at `{"content":[{}]}`. -/
theorem missing_text_field_falls_back_witness :
    extractMessages (Json.obj [("content", Json.arr [Json.obj []])]) =
      Except.ok (Json.str "No response from Bedrock") :=
  missing_text_field_falls_back [("content", Json.arr [Json.obj []])] [] [] rfl rfl

/-- C5 counterexample: for the response `{"output":"some text"}` —
`completion` absent, and `"text" in "some text"` true by Python substring
containment — subscripting the string raises `TypeError`, so extraction
returns neither an extracted value nor the diagnostic string the claim's
"otherwise" branch demands. -/
theorem string_output_extraction_raises :
    extractCompletion (Json.obj [("output", Json.str "some text")]) =
      Except.error (PyExc.typeError "string indices must be integers") ∧
    extractCompletion (Json.obj [("output", Json.str "some text")]) ≠
      Except.ok (Json.str ("No valid response found. Raw response: " ++
        Json.dumpsIndent 0 (Json.obj [("output", Json.str "some text")]))) :=
  ⟨rfl, fun h => Except.noConfusion h⟩

/-- C5 amended: completion-schema extraction precedence, for response
objects whose `output` field (when consulted) is itself an object: a
present `completion` field's value is returned; otherwise a present
`output` object's `text` value is returned; otherwise the result is
`"No valid response found. Raw response: "` followed by the
pretty-printed raw response.  In particular `{"completion":"hi"}` yields
`"hi"` and `{"output":{"text":"hi2"}}` yields `"hi2"`.  (A non-object
`output` value that Python's `in` finds `"text"` in raises `TypeError`
instead, per the counterexample.) -/
theorem completion_extraction_precedence :
    extractCompletion (Json.obj [("completion", Json.str "hi")]) =
      Except.ok (Json.str "hi") ∧
    extractCompletion (Json.obj [("output", Json.obj [("text", Json.str "hi2")])]) =
      Except.ok (Json.str "hi2") ∧
    (∀ (fields : List (String × Json)) (v : Json),
      lookupField fields "completion" = some v →
        extractCompletion (Json.obj fields) = Except.ok v) ∧
    (∀ (fields ofields : List (String × Json)) (t : Json),
      lookupField fields "completion" = none →
        lookupField fields "output" = some (Json.obj ofields) →
          lookupField ofields "text" = some t →
            extractCompletion (Json.obj fields) = Except.ok t) ∧
    (∀ fields : List (String × Json),
      lookupField fields "completion" = none →
        lookupField fields "output" = none →
          extractCompletion (Json.obj fields) =
            Except.ok (Json.str ("No valid response found. Raw response: " ++
              Json.dumpsIndent 0 (Json.obj fields)))) ∧
    (∀ fields ofields : List (String × Json),
      lookupField fields "completion" = none →
        lookupField fields "output" = some (Json.obj ofields) →
          lookupField ofields "text" = none →
            extractCompletion (Json.obj fields) =
              Except.ok (Json.str ("No valid response found. Raw response: " ++
                Json.dumpsIndent 0 (Json.obj fields)))) := by
  refine ⟨rfl, rfl, ?_, ?_, ?_, ?_⟩
  · intro fields v hv
    simp [extractCompletion, pyContains, hv, pySubscriptStr, Bind.bind, Except.bind]
  · intro fields ofields t hnone hout htext
    simp [extractCompletion, pyContains, hnone, hout, htext, pySubscriptStr,
          Bind.bind, Except.bind]
  · intro fields hnone hno
    simp [extractCompletion, pyContains, hnone, hno, pySubscriptStr,
          Bind.bind, Except.bind, Pure.pure, Except.pure]
  · intro fields ofields hnone hout htext
    simp [extractCompletion, pyContains, hnone, hout, htext, pySubscriptStr,
          Bind.bind, Except.bind, Pure.pure, Except.pure]

/-- Witness for C5 amended at the empty response object. -/
theorem completion_extraction_precedence_witness :
    extractCompletion (Json.obj []) =
      Except.ok (Json.str "No valid response found. Raw response: \x7b\x7d") :=
  completion_extraction_precedence.2.2.2.2.1 [] rfl rfl
